import Mathlib

/-!
Verification of the conversation core of the a2a-ui repository, embedded
shallowly from `src/hooks/useChat.ts`.  JavaScript objects are modelled as
Lean structures whose optional fields are `Option`s; JavaScript truthiness
of optional strings (`undefined`, `null` and `""` are falsy) is made
explicit through `jsTruthy`.
-/

namespace A2AUI

/-- JavaScript truthiness of an optional string field: absent (`undefined` /
`null`) and the empty string are falsy, every other string is truthy. -/
def jsTruthy : Option String → Bool
  | some s => s != ""
  | none => false

/-- A2A `Part`: tagged union over text, file and data parts, as used by
`useChat.ts` (only the `kind` discriminator and `text` payload matter to the
logic of the hook). -/
inductive Part where
  | text (s : String)
  | file (name : String) (mimeType : String) (bytes : String)
  | data (payload : String)
deriving Repr, DecidableEq

/-- Test that the `kind` of a part is `"text"`. -/
def Part.isText : Part → Bool
  | .text _ => true
  | _ => false

/-- The idiom `parts.filter(p => p.kind === "text").map(p => p.text).join("")`
that `useChat.ts` applies to every part list it extracts text from. -/
def joinTextParts : List Part → String
  | [] => ""
  | Part.text s :: rest => s ++ joinTextParts rest
  | _ :: rest => joinTextParts rest

/-- A2A `Artifact` as the hook consumes it.  `metadata` is an arbitrary JSON
object in the source; any present object is truthy under `!!`, so only its
presence is modelled. -/
structure Artifact where
  artifactId : String
  name : Option String
  description : Option String
  parts : Option (List Part)
  metadata : Option Unit
deriving Repr, DecidableEq

/-- The `status.message` object of a Task: a message whose `parts` may be
absent, plus an optional `contextId`. -/
structure MessageObj where
  parts : Option (List Part)
  contextId : Option String
deriving Repr, DecidableEq

/-- A Task `status`: a state string and an optional embedded message. -/
structure TaskStatus where
  state : Option String
  message : Option MessageObj
deriving Repr, DecidableEq

/-- A server reply to a blocking send, with exactly the fields the duck-typed
dispatcher in `sendMessageSync` probes: `kind`, `id`, `contextId`, `status`,
top-level `artifacts` and top-level `parts`.  `some` means the field is
present (and, for the two arrays, is an array). -/
structure SyncResponse where
  kind : Option String
  id : Option String
  contextId : Option String
  status : Option TaskStatus
  artifacts : Option (List Artifact)
  parts : Option (List Part)
deriving Repr, DecidableEq

/-- The canonical `{text, parts, artifacts}` result returned by
`sendMessageSync`. -/
structure CanonicalTurn where
  text : String
  parts : List Part
  artifacts : List Artifact
deriving Repr, DecidableEq

/-- Guard of the first dispatch branch of `sendMessageSync`:
the kind field is present and equals task and the status field is present. -/
def isTaskWithStatus (r : SyncResponse) : Bool :=
  r.kind == some "task" && r.status.isSome

/-- The optional chain `task.status?.message?.parts`. -/
def statusMessageParts (r : SyncResponse) : Option (List Part) :=
  (r.status.bind TaskStatus.message).bind MessageObj.parts

/-- One iteration of the `for (const artifact of responseMessage.artifacts)`
loop in `sendMessageSync`: a non-empty artifact text replaces the accumulator
when it still holds the initial `"No response"` sentinel, and is otherwise
joined on with a newline. -/
def syncArtifactStep (acc : String) (a : Artifact) : String :=
  match a.parts with
  | some ps =>
    let t := joinTextParts ps
    if t = "" then acc
    else if acc = "No response" then t
    else acc ++ "\n" ++ t
  | none => acc

/-- The full artifact loop of `sendMessageSync`, starting from the
`"No response"` initialisation of `agentResponse`. -/
def artifactsTextFold (arts : List Artifact) : String :=
  arts.foldl syncArtifactStep "No response"

/-- The response-normalization tail of `sendMessageSync` (its lines 292-348):
dispatch on Task-with-status, then top-level artifacts, then bare Message
parts, producing the canonical `{text, parts, artifacts}` result. -/
def normalizeSyncResponse (r : SyncResponse) : CanonicalTurn :=
  if isTaskWithStatus r then
    let withText : CanonicalTurn :=
      match statusMessageParts r with
      | some ps =>
        let t := joinTextParts ps
        { text := if t = "" then "Empty response" else t, parts := ps, artifacts := [] }
      | none => { text := "No response", parts := [], artifacts := [] }
    { withText with artifacts := r.artifacts.getD [] }
  else
    match r.artifacts with
    | some arts => { text := artifactsTextFold arts, parts := [], artifacts := arts }
    | none =>
      match r.parts with
      | some ps =>
        let t := joinTextParts ps
        { text := if t = "" then "Empty response" else t, parts := ps, artifacts := [] }
      | none => { text := "No response", parts := [], artifacts := [] }

/-- `sendMessageSync` when the client may also deliver a null reply
(`if (responseMessage)` fails): the placeholder defaults survive. -/
def normalizeSyncReply : Option SyncResponse → CanonicalTurn
  | some r => normalizeSyncResponse r
  | none => { text := "No response", parts := [], artifacts := [] }

/-- The ordered list of the non-empty concatenated text of each artifact, used to
state what the artifact branch is specified to produce. -/
def artifactTexts : List Artifact → List String
  | [] => []
  | a :: rest =>
    match a.parts with
    | some ps =>
      let t := joinTextParts ps
      if t = "" then artifactTexts rest else t :: artifactTexts rest
    | none => artifactTexts rest

/-- Modelled from the spec: joining a list of texts with a newline between
consecutive entries, the join the spec prescribes for the artifacts branch. -/
def joinWithNewlines : List String → String
  | [] => ""
  | [t] => t
  | t :: rest => t ++ "\n" ++ joinWithNewlines rest

/-- An outgoing (or history) A2A `Message` object built by the hook.  The two
conditional spreads of the source decide whether `taskId` / `contextId` are
present. -/
structure A2AMessage where
  messageId : String
  role : String
  parts : List Part
  kind : String
  taskId : Option String
  contextId : Option String
deriving Repr, DecidableEq

/-- The message construction shared by `sendMessageSync` (lines 239-246) and
`sendMessageStream` (lines 369-376):
`...(currentTaskId && \x7b taskId: currentTaskId \x7d)` and
`...(currentContextId && !currentTaskId && \x7b contextId: currentContextId \x7d)`. -/
def buildOutgoingMessage (messageId : String) (parts : List Part)
    (currentTaskId currentContextId : Option String) : A2AMessage :=
  { messageId := messageId
    role := "user"
    parts := parts
    kind := "message"
    taskId := if jsTruthy currentTaskId then currentTaskId else none
    contextId :=
      if jsTruthy currentContextId && !(jsTruthy currentTaskId) then currentContextId
      else none }

/-- The per-conversation continuation state of the hook. -/
structure ConversationState where
  currentTaskId : Option String
  currentContextId : Option String
deriving Repr, DecidableEq

/-- The optional chain `responseMessage.status?.message?.contextId`. -/
def statusMessageContextId (r : SyncResponse) : Option String :=
  (r.status.bind TaskStatus.message).bind MessageObj.contextId

/-- The taskId/contextId persistence of `sendMessageSync` (lines 274-290):
a string `id` is saved as the task id; a string top-level `contextId` is
saved, and failing that a truthy `status.message.contextId` is saved. -/
def updateStateFromSyncReply (s : ConversationState) :
    Option SyncResponse → ConversationState
  | none => s
  | some r =>
    let s1 := match r.id with
      | some i => { s with currentTaskId := some i }
      | none => s
    match r.contextId with
    | some c => { s1 with currentContextId := some c }
    | none =>
      if jsTruthy (statusMessageContextId r) then
        { s1 with currentContextId := statusMessageContextId r }
      else s1

/-- A streaming event as the duck-typed loop of `sendMessageStream` probes it:
optional `id`, `contextId`, `status`, `artifact`, `append` and `final`
fields. -/
structure StreamEvent where
  id : Option String
  contextId : Option String
  status : Option TaskStatus
  artifact : Option Artifact
  append : Option Bool
  final : Option Bool
deriving Repr, DecidableEq

/-- The visible agent message bubble the streaming loop creates and updates:
its displayed content plus its `artifacts` and `parts` fields. -/
structure ChatBubble where
  content : String
  artifacts : Option (List Artifact)
  parts : Option (List Part)
deriving Repr, DecidableEq

/-- The streaming accumulator: `accumulatedText`, `accumulatedArtifacts`, and
the agent bubble (absent until the first text chunk arrives, mirroring
`agentMessageId === null`).  `accumulatedParts` is omitted because the source
declares it and never appends to it. -/
structure StreamAcc where
  accumulatedText : String
  accumulatedArtifacts : List Artifact
  bubble : Option ChatBubble
deriving Repr, DecidableEq

/-- The accumulator at the start of the streaming loop. -/
def initialStreamAcc : StreamAcc :=
  { accumulatedText := "", accumulatedArtifacts := [], bubble := none }

/-- The placeholder test of lines 447-453: an artifact with no (or an empty)
parts array, a falsy description and no metadata is ignored via `continue`. -/
def artifactIsPlaceholder (a : Artifact) : Bool :=
  let hasArtifactParts := match a.parts with
    | some ps => !ps.isEmpty
    | none => false
  !(hasArtifactParts || jsTruthy a.description || a.metadata.isSome)

/-- Test from line 457: the parts array is present and some part has a kind other than text. -/
def artifactHasNonTextParts (a : Artifact) : Bool :=
  match a.parts with
  | some ps => ps.any (fun p => !p.isText)
  | none => false

/-- The update applied to an already-stored artifact `a` (lines 461-471):
`if (appendMode && artifact.parts)` the new parts are concatenated onto the
stored ones (`[...(existingArtifact.parts || []), ...artifact.parts]`),
otherwise the stored artifact is replaced outright. -/
def upsertMerge (appendMode : Bool) (art a : Artifact) : Artifact :=
  match art.parts, appendMode with
  | some newParts, true => { a with parts := some (a.parts.getD [] ++ newParts) }
  | _, _ => art

/-- The by-id reconciliation of lines 460-474: find the first stored artifact
with the same `artifactId` and merge or replace it, pushing the artifact when
the id is new. -/
def upsertArtifact (appendMode : Bool) (art : Artifact) :
    List Artifact → List Artifact
  | [] => [art]
  | a :: rest =>
    if a.artifactId == art.artifactId then upsertMerge appendMode art a :: rest
    else a :: upsertArtifact appendMode art rest

/-- The status-update text candidate (lines 429-441): the concatenated text of
`event.status.message.parts`, or `""` when any link of the chain is absent. -/
def statusChunk (e : StreamEvent) : String :=
  match e.status with
  | some st =>
    match st.message with
    | some m =>
      match m.parts with
      | some ps => joinTextParts ps
      | none => ""
    | none => ""
  | none => ""

/-- The artifact text candidate (lines 489-503): the concatenated text of the
parts of the artifact, with `""` when the parts array is absent. -/
def artifactChunk (a : Artifact) : String :=
  match a.parts with
  | some ps => joinTextParts ps
  | none => ""

/-- The `newTextChunk` that reaches the text-reconciliation section of the
loop for a given event: `""` for a placeholder-artifact event (whose
`continue` skips that section); otherwise the artifact text when non-empty,
else the status text. -/
def eventCandidateChunk (e : StreamEvent) : String :=
  match e.artifact with
  | some art =>
    if artifactIsPlaceholder art then ""
    else if artifactChunk art = "" then statusChunk e
    else artifactChunk art
  | none => statusChunk e

/-- The text-reconciliation and completion tail of the loop (lines 506-572):
a non-empty chunk is appended when `append` is truthy and replaces the text
otherwise, the bubble is created or updated with a trailing cursor, and a
truthy `final` strips the cursor, attaches the accumulated artifacts and
stops the loop.  The `parts` field stays absent on completion because
`accumulatedParts` is never written in the source. -/
def textAndFinalStep (acc : StreamAcc) (chunk : String) (e : StreamEvent) :
    StreamAcc × Bool :=
  let newText :=
    if chunk = "" then acc.accumulatedText
    else if e.append.getD false then acc.accumulatedText ++ chunk
    else chunk
  let bubble1 : Option ChatBubble :=
    if chunk = "" then acc.bubble
    else match acc.bubble with
      | some b => some { b with content := newText ++ "▋" }
      | none => some { content := newText ++ "▋", artifacts := some [], parts := some [] }
  let isFinal := e.final.getD false
  let bubble2 :=
    if isFinal then
      match bubble1 with
      | some _ => some
          { content := newText
            artifacts :=
              if acc.accumulatedArtifacts.isEmpty then none
              else some acc.accumulatedArtifacts
            parts := none }
      | none => none
    else bubble1
  ({ acc with accumulatedText := newText, bubble := bubble2 }, isFinal)

/-- One iteration of the streaming loop of `sendMessageStream` for one event.
The second component is true when the loop `break`s on a truthy `final`
(which a placeholder-artifact `continue` skips). -/
def processEvent (acc : StreamAcc) (e : StreamEvent) : StreamAcc × Bool :=
  match e.artifact with
  | some art =>
    if artifactIsPlaceholder art then (acc, false)
    else
      let acc1 :=
        if artifactHasNonTextParts art then
          let arts := upsertArtifact (e.append.getD false) art acc.accumulatedArtifacts
          { acc with
            accumulatedArtifacts := arts
            bubble := acc.bubble.map (fun b => { b with artifacts := some arts }) }
        else acc
      textAndFinalStep acc1 (eventCandidateChunk e) e
  | none => textAndFinalStep acc (eventCandidateChunk e) e

/-- The streaming loop over a list of delivered events, stopping after an
event whose `final` check fires. -/
def runStreamAux (acc : StreamAcc) : List StreamEvent → StreamAcc
  | [] => acc
  | e :: rest =>
    let r := processEvent acc e
    if r.2 then r.1 else runStreamAux r.1 rest

/-- A complete, error-free run of the streaming loop. -/
def runStream (events : List StreamEvent) : StreamAcc :=
  runStreamAux initialStreamAcc events

/-- A run of `sendMessageStream` whose event iterator raises an error after
delivering `events`: the catch block (lines 575-587) rewrites the bubble
content to the error string when a bubble exists; `accumulatedText` is still
returned unchanged. -/
def runStreamWithError (events : List StreamEvent) (errMsg : String) : StreamAcc :=
  let acc := runStreamAux initialStreamAcc events
  match acc.bubble with
  | some b => { acc with bubble := some { b with content := "Streaming error: " ++ errMsg } }
  | none => acc

/-- A chat-side message of the UI (`ChatMessage` in `types/chat.ts`); the
`timestamp` is real time and is not modelled. -/
structure ChatMessage where
  id : Nat
  sender : String
  content : String
  senderName : String
  artifacts : Option (List Artifact)
  parts : Option (List Part)
deriving Repr, DecidableEq

/-- A file attachment as the send guard inspects it (`FileAttachment` in
`types/chat.ts`, reduced to the fields the modelled operations read). -/
structure FileAttachment where
  name : String
  type : String
  base64 : Option String
  status : String
deriving Repr, DecidableEq

/-- The hook state that `sendMessage` reads and writes. -/
structure ChatState where
  messages : List ChatMessage
  isLoading : Bool
  currentTaskId : Option String
  currentContextId : Option String
deriving Repr, DecidableEq

/-- The JavaScript `WhiteSpace` and `LineTerminator` characters that
`String.prototype.trim` removes. -/
def isJsWhitespace (c : Char) : Bool :=
  c = ' ' || c = '\t' || c = '\n' || c = '\r' ||
  c = '\u000b' || c = '\u000c' || c = '\u00a0' || c = '\ufeff' ||
  c = '\u2028' || c = '\u2029' || c = '\u1680' ||
  (c ≥ '\u2000' && c ≤ '\u200a') || c = '\u202f' || c = '\u205f' || c = '\u3000'

/-- The guard condition `!content.trim()`: true exactly when every character
of the content is whitespace. -/
def jsTrimIsEmpty (s : String) : Bool :=
  s.data.all isJsWhitespace

/-- The guard condition `!fileAttachments || fileAttachments.length === 0`. -/
def filesAbsent : Option (List FileAttachment) → Bool
  | none => true
  | some l => l.isEmpty

/-- The awaited network interaction of one send, abstracted as data: the
blocking client call resolves with an optional reply or rejects, and the
streaming call delivers a list of events optionally followed by an error. -/
inductive SendOutcome where
  | syncReply (reply : Option SyncResponse)
  | syncFailure (errMsg : String)
  | streamRun (events : List StreamEvent) (streamErr : Option String)
deriving Repr, DecidableEq

/-- `convertChatMessageToA2AMessage`: a chat message re-expressed as an A2A
message with a synthesized id `chat-<id>-<Date.now()>`; the `contextId` prop
is spread in only when truthy.  `now` stands for `Date.now()`. -/
def convertChatMessageToA2AMessage (propContextId : Option String) (now : Nat)
    (m : ChatMessage) : A2AMessage :=
  { messageId := "chat-" ++ toString m.id ++ "-" ++ toString now
    role := if m.sender = "user" then "user" else "agent"
    parts := [Part.text m.content]
    kind := "message"
    taskId := none
    contextId := if jsTruthy propContextId then propContextId else none }

/-- The test `currentMessages.length === 1 && currentMessages[0].id === 1`
that excludes the initial greeting when it is the only message. -/
def isOnlyGreeting : List ChatMessage → Bool
  | [m] => m.id == 1
  | _ => false

/-- `slice(-10)`: the last (at most) `n` elements of a list. -/
def lastN (n : Nat) (l : List α) : List α :=
  l.drop (l.length - n)

/-- `getMessageHistory` (lines 186-194): the last 10 messages converted to
A2A form, or nothing when the initial greeting is the only message. -/
def getMessageHistory (propContextId : Option String) (now : Nat)
    (currentMessages : List ChatMessage) : List A2AMessage :=
  let messagesToInclude :=
    if isOnlyGreeting currentMessages then [] else lastN 10 currentMessages
  messagesToInclude.map (convertChatMessageToA2AMessage propContextId now)

/-- One invocation of `sendMessage` (lines 592-650).  The boolean result
records whether a request was issued.  The guard returns without any state
change when the trimmed content is empty with no attachments, when a send is
already in flight (`isLoading`), or when no agent URL is configured.
Otherwise the user message is appended and the turn runs to completion with
the network interaction described by `outcome`; `isLoading` is true for the
duration and reset in the `finally` block.  The taskId/contextId that
`sendMessageStream` additionally records from stream events is outside the
modelled claims and is left unchanged here. -/
def sendMessage (isStreamingEnabled : Bool) (agentUrl : Option String)
    (content : String) (files : Option (List FileAttachment))
    (outcome : SendOutcome) (s : ChatState) : ChatState × Bool :=
  if (jsTrimIsEmpty content && filesAbsent files) || s.isLoading || !jsTruthy agentUrl then
    (s, false)
  else
    let userMessage : ChatMessage :=
      { id := s.messages.length + 1, sender := "user", content := content
        senderName := "You", artifacts := none, parts := none }
    let s1 := { s with messages := s.messages ++ [userMessage], isLoading := true }
    let s2 :=
      match outcome with
      | SendOutcome.syncFailure err =>
        { s1 with messages := s1.messages ++
            [({ id := s1.messages.length + 1, sender := "agent"
                content := "Error: " ++ err, senderName := "Assistant"
                artifacts := none, parts := none } : ChatMessage)] }
      | SendOutcome.syncReply reply =>
        let conv := updateStateFromSyncReply
          { currentTaskId := s1.currentTaskId, currentContextId := s1.currentContextId } reply
        let turn := normalizeSyncReply reply
        { s1 with
          currentTaskId := conv.currentTaskId
          currentContextId := conv.currentContextId
          messages := s1.messages ++
            [({ id := s1.messages.length + 1, sender := "agent", content := turn.text
                senderName := "Assistant"
                artifacts := if turn.artifacts.isEmpty then none else some turn.artifacts
                parts :=
                  if !turn.parts.isEmpty && turn.parts.any (fun p => !p.isText) then
                    some turn.parts
                  else none } : ChatMessage)] }
      | SendOutcome.streamRun events streamErr =>
        let acc := match streamErr with
          | none => runStream events
          | some msg => runStreamWithError events msg
        match acc.bubble with
        | some b =>
          { s1 with messages := s1.messages ++
              [({ id := s1.messages.length + 1, sender := "agent", content := b.content
                  senderName := "Assistant", artifacts := b.artifacts, parts := b.parts } : ChatMessage)] }
        | none => s1
    ({ s2 with isLoading := false }, true)

/-!
Helper lemmas about the streaming step, shared by several of the claims
below.
-/

theorem textAndFinalStep_fst_accumulatedText (acc : StreamAcc) (c : String)
    (e : StreamEvent) :
    ((textAndFinalStep acc c e).1).accumulatedText =
      if c = "" then acc.accumulatedText
      else if e.append.getD false then acc.accumulatedText ++ c
      else c := rfl

theorem textAndFinalStep_fst_accumulatedArtifacts (acc : StreamAcc) (c : String)
    (e : StreamEvent) :
    ((textAndFinalStep acc c e).1).accumulatedArtifacts = acc.accumulatedArtifacts := rfl

theorem textAndFinalStep_snd (acc : StreamAcc) (c : String) (e : StreamEvent) :
    (textAndFinalStep acc c e).2 = e.final.getD false := rfl

theorem eventCandidateChunk_of_placeholder (e : StreamEvent) (art : Artifact)
    (hart : e.artifact = some art) (hph : artifactIsPlaceholder art = true) :
    eventCandidateChunk e = "" := by
  simp [eventCandidateChunk, hart, hph]

theorem processEvent_fst_accumulatedText (acc : StreamAcc) (e : StreamEvent)
    (hne : eventCandidateChunk e ≠ "") :
    ((processEvent acc e).1).accumulatedText =
      if e.append.getD false then acc.accumulatedText ++ eventCandidateChunk e
      else eventCandidateChunk e := by
  cases hart : e.artifact with
  | none =>
    simp only [processEvent, hart]
    rw [textAndFinalStep_fst_accumulatedText]
    simp [hne]
  | some art =>
    by_cases hph : artifactIsPlaceholder art
    · exact absurd (eventCandidateChunk_of_placeholder e art hart hph) hne
    · simp only [processEvent, hart, hph, Bool.false_eq_true, if_false]
      by_cases hnt : artifactHasNonTextParts art <;>
        simp [hnt, textAndFinalStep_fst_accumulatedText, hne]

/-- C3: for every streaming event that yields a non-empty candidate text
chunk, a falsy (absent or false) `append` flag makes the chunk replace the
accumulated text outright, and a true `append` flag appends it. -/
theorem streamText_append_replace (acc : StreamAcc) (e : StreamEvent)
    (hchunk : eventCandidateChunk e ≠ "") :
    (e.append.getD false = false →
      ((processEvent acc e).1).accumulatedText = eventCandidateChunk e) ∧
    (e.append.getD false = true →
      ((processEvent acc e).1).accumulatedText
        = acc.accumulatedText ++ eventCandidateChunk e) := by
  rw [processEvent_fst_accumulatedText acc e hchunk]
  constructor <;> intro h <;> simp [h]

/-- A sample accumulator holding a previously delivered chunk `"A"`. -/
def sampleAccA : StreamAcc :=
  ⟨"A", [], some ⟨"A▋", some [], some []⟩⟩

/-- A sample status-update event delivering the text `"B"` with no `append`
flag. -/
def sampleEventB : StreamEvent :=
  ⟨none, none, some ⟨none, some ⟨some [Part.text "B"], none⟩⟩, none, none, none⟩

/-- Witness for C3: after a prior chunk left `"A"` accumulated, a
status-update event delivering `"B"` with no `append` flag leaves exactly
`"B"`. -/
theorem streamText_append_replace_witness :
    ((processEvent sampleAccA sampleEventB).1).accumulatedText = "B" := by
  have h := streamText_append_replace sampleAccA sampleEventB (by decide)
  exact (h.1 (by decide)).trans (by decide)

/-- C5: an artifact-update event whose artifact has no parts, no description
and no metadata is discarded entirely: the whole loop iteration is a no-op
(the accumulator is unchanged, no text chunk is contributed, and even the
`final` check is skipped by the `continue`). -/
theorem streamArtifact_placeholder_discarded (acc : StreamAcc) (e : StreamEvent)
    (art : Artifact) (hart : e.artifact = some art)
    (hph : artifactIsPlaceholder art = true) :
    processEvent acc e = (acc, false) := by
  simp [processEvent, hart, hph]

/-- A sample placeholder-artifact event (an artifact named `"response"` with
an empty parts array, an empty description and no metadata) that also carries
status text and a truthy `final` flag. -/
def samplePlaceholderEvent : StreamEvent :=
  ⟨none, none, some ⟨none, some ⟨some [Part.text "T"], none⟩⟩,
    some ⟨"response", none, some "", some [], none⟩, none, some true⟩

/-- Witness for C5: the concrete placeholder artifact event leaves the
initial accumulator untouched and does not stop the stream. -/
theorem streamArtifact_placeholder_discarded_witness :
    processEvent initialStreamAcc samplePlaceholderEvent = (initialStreamAcc, false) :=
  streamArtifact_placeholder_discarded _ _ _ rfl (by decide)

/-- C7: a call to `sendMessage` made while a previous send of the same
conversation is still in flight (`isLoading` is true) is silently ignored:
the state is returned unchanged and no request is issued. -/
theorem sendMessage_busy_ignored (streaming : Bool) (agentUrl : Option String)
    (content : String) (files : Option (List FileAttachment))
    (outcome : SendOutcome) (s : ChatState) (hbusy : s.isLoading = true) :
    sendMessage streaming agentUrl content files outcome s = (s, false) := by
  simp [sendMessage, hbusy]

/-- Witness for C7: a concrete busy call is a no-op. -/
theorem sendMessage_busy_ignored_witness :
    sendMessage false (some "http://agent") "hello" none
      (SendOutcome.syncReply none)
      { messages := [], isLoading := true, currentTaskId := none, currentContextId := none }
      = ({ messages := [], isLoading := true, currentTaskId := none, currentContextId := none }, false) :=
  sendMessage_busy_ignored false (some "http://agent") "hello" none
    (SendOutcome.syncReply none)
    { messages := [], isLoading := true, currentTaskId := none, currentContextId := none } rfl

/-- C10: a call to `sendMessage` whose content trims to empty with no
attachments, or made with no agent URL configured, is a complete no-op: no
request is issued and the message list, `currentTaskId` and
`currentContextId` are unchanged. -/
theorem sendMessage_noop_guard (streaming : Bool) (agentUrl : Option String)
    (content : String) (files : Option (List FileAttachment))
    (outcome : SendOutcome) (s : ChatState)
    (hguard : (jsTrimIsEmpty content = true ∧ filesAbsent files = true) ∨
      jsTruthy agentUrl = false) :
    (sendMessage streaming agentUrl content files outcome s).1.messages = s.messages ∧
    (sendMessage streaming agentUrl content files outcome s).1.currentTaskId = s.currentTaskId ∧
    (sendMessage streaming agentUrl content files outcome s).1.currentContextId = s.currentContextId ∧
    (sendMessage streaming agentUrl content files outcome s).2 = false := by
  have hstep : sendMessage streaming agentUrl content files outcome s = (s, false) := by
    rcases hguard with ⟨h1, h2⟩ | h
    · simp [sendMessage, h1, h2]
    · simp [sendMessage, h]
  rw [hstep]
  exact ⟨rfl, rfl, rfl, rfl⟩

/-- Witness for C10: a whitespace-only message with no attachments and no
configured agent URL changes nothing. -/
theorem sendMessage_noop_guard_witness :
    (sendMessage false none "  " none (SendOutcome.syncReply none)
      { messages := [], isLoading := false, currentTaskId := some "t"
        currentContextId := some "c" }).1.messages = [] ∧
    (sendMessage false none "  " none (SendOutcome.syncReply none)
      { messages := [], isLoading := false, currentTaskId := some "t"
        currentContextId := some "c" }).1.currentTaskId = some "t" :=
  by
    have h := sendMessage_noop_guard false none "  " none (SendOutcome.syncReply none)
      { messages := [], isLoading := false, currentTaskId := some "t"
        currentContextId := some "c" } (Or.inl ⟨by decide, rfl⟩)
    exact ⟨h.1, h.2.1⟩

/-- C6 counterexample: `currentTaskId = some ""` is non-null, yet the built
message omits `taskId` (the empty string is falsy in JavaScript) and still
carries the supplied `contextId`. -/
theorem outgoingMessage_emptyTaskId_counterexample :
    (some "" : Option String).isSome = true ∧
    (buildOutgoingMessage "m1" [] (some "") (some "ctx")).taskId = none ∧
    (buildOutgoingMessage "m1" [] (some "") (some "ctx")).contextId = some "ctx" := by
  decide

/-- C6 (amended): a built outgoing message never carries both `taskId` and
`contextId`; whenever `currentTaskId` is a non-empty string the message
carries it and omits `contextId`; and `contextId` is included only while
`currentTaskId` is null or empty. -/
theorem outgoingMessage_id_exclusivity (messageId : String) (parts : List Part)
    (t c : Option String) :
    (¬((buildOutgoingMessage messageId parts t c).taskId.isSome = true ∧
       (buildOutgoingMessage messageId parts t c).contextId.isSome = true)) ∧
    (jsTruthy t = true →
      (buildOutgoingMessage messageId parts t c).taskId = t ∧
      (buildOutgoingMessage messageId parts t c).contextId = none) ∧
    ((buildOutgoingMessage messageId parts t c).contextId.isSome = true →
      jsTruthy t = false) := by
  by_cases ht : jsTruthy t <;> by_cases hc : jsTruthy c <;>
    simp [buildOutgoingMessage, ht, hc]

/-- Witness for C6: once `taskId = "t1"` is known, the next built message
carries it and no `contextId`, even though a `contextId` is supplied. -/
theorem outgoingMessage_id_exclusivity_witness :
    (buildOutgoingMessage "m2" [] (some "t1") (some "ctx")).taskId = some "t1" ∧
    (buildOutgoingMessage "m2" [] (some "t1") (some "ctx")).contextId = none :=
  (outgoingMessage_id_exclusivity "m2" [] (some "t1") (some "ctx")).2.1 (by decide)

/-- C9: the attached history is the last 10 chat messages re-expressed as A2A
messages with synthesized ids, and is empty when the initial greeting is the
only message so far. -/
theorem getMessageHistory_spec (ctx : Option String) (now : Nat)
    (msgs : List ChatMessage) :
    (isOnlyGreeting msgs = true → getMessageHistory ctx now msgs = []) ∧
    (isOnlyGreeting msgs = false →
      getMessageHistory ctx now msgs
        = (lastN 10 msgs).map (convertChatMessageToA2AMessage ctx now)) ∧
    (getMessageHistory ctx now msgs).length ≤ 10 ∧
    (∀ hm, hm ∈ getMessageHistory ctx now msgs → ∃ m, m ∈ msgs ∧
      hm.messageId = "chat-" ++ toString m.id ++ "-" ++ toString now) := by
  refine ⟨fun h => by simp [getMessageHistory, h],
          fun h => by simp [getMessageHistory, h], ?_, ?_⟩
  · by_cases h : isOnlyGreeting msgs <;>
      simp [getMessageHistory, h, lastN, List.length_map, List.length_drop] <;>
      omega
  · intro hm hmem
    by_cases h : isOnlyGreeting msgs
    · simp [getMessageHistory, h] at hmem
    · simp only [getMessageHistory, h, Bool.false_eq_true, if_false,
        List.mem_map, lastN] at hmem
      obtain ⟨m, hmm, rfl⟩ := hmem
      exact ⟨m, List.mem_of_mem_drop hmm, rfl⟩

/-- The initial greeting chat message of the hook. -/
def greetingMessage : ChatMessage :=
  ⟨1, "agent", "Hello, I am your agent. How can I assist you today?", "Assistant", none, none⟩

/-- Witness for C9: when the greeting is the only message, the history is
empty. -/
theorem getMessageHistory_spec_witness :
    getMessageHistory none 0 [greetingMessage] = [] :=
  (getMessageHistory_spec none 0 [greetingMessage]).1 (by decide)

/-!
Helper lemmas about the artifact text fold of `sendMessageSync`.
-/

/-- The artifact fold of `sendMessageSync` seen as a fold over the non-empty
artifact texts alone. -/
def textsFold (acc : String) (ts : List String) : String :=
  ts.foldl (fun b t => if b = "No response" then t else b ++ "\n" ++ t) acc

theorem foldl_syncArtifactStep (arts : List Artifact) (acc : String) :
    arts.foldl syncArtifactStep acc = textsFold acc (artifactTexts arts) := by
  induction arts generalizing acc with
  | nil => rfl
  | cons a rest ih =>
    rw [List.foldl_cons]
    cases hp : a.parts with
    | none =>
      have h1 : syncArtifactStep acc a = acc := by simp [syncArtifactStep, hp]
      have h2 : artifactTexts (a :: rest) = artifactTexts rest := by
        simp [artifactTexts, hp]
      rw [h1, ih, h2]
    | some ps =>
      by_cases ht : joinTextParts ps = ""
      · have h1 : syncArtifactStep acc a = acc := by simp [syncArtifactStep, hp, ht]
        have h2 : artifactTexts (a :: rest) = artifactTexts rest := by
          simp [artifactTexts, hp, ht]
        rw [h1, ih, h2]
      · have h1 : syncArtifactStep acc a =
            if acc = "No response" then joinTextParts ps
            else acc ++ "\n" ++ joinTextParts ps := by
          simp [syncArtifactStep, hp, ht]
        have h2 : artifactTexts (a :: rest) = joinTextParts ps :: artifactTexts rest := by
          simp [artifactTexts, hp, ht]
        rw [h1, ih, h2]
        rfl

theorem newline_append_ne_noResponse (a b : String) :
    a ++ "\n" ++ b ≠ "No response" := by
  intro h
  have hmem : ('\n' : Char) ∈ (a ++ "\n" ++ b).data := by
    rw [String.data_append, String.data_append]
    exact List.mem_append.mpr (Or.inl (List.mem_append.mpr (Or.inr (by decide))))
  rw [h] at hmem
  exact absurd hmem (by decide)

theorem textsFold_join (ts : List String) (acc : String)
    (hacc : acc ≠ "No response") :
    textsFold acc ts = joinWithNewlines (acc :: ts) := by
  induction ts generalizing acc with
  | nil => rfl
  | cons t rest ih =>
    have h1 : textsFold acc (t :: rest) = textsFold (acc ++ "\n" ++ t) rest := by
      simp [textsFold, hacc]
    rw [h1, ih (acc ++ "\n" ++ t) (newline_append_ne_noResponse acc t)]
    cases rest with
    | nil => rfl
    | cons r rs => simp [joinWithNewlines, String.append_assoc]

theorem artifactsTextFold_join (arts : List Artifact)
    (h1 : artifactTexts arts ≠ [])
    (h2 : (artifactTexts arts).head? ≠ some "No response") :
    artifactsTextFold arts = joinWithNewlines (artifactTexts arts) := by
  obtain ⟨t1, rest, heq⟩ : ∃ t1 rest, artifactTexts arts = t1 :: rest := by
    cases h : artifactTexts arts with
    | nil => exact absurd h h1
    | cons t r => exact ⟨t, r, rfl⟩
  have ht1 : t1 ≠ "No response" := by
    rw [heq] at h2
    simpa using h2
  rw [artifactsTextFold, foldl_syncArtifactStep, heq]
  have hstep : textsFold "No response" (t1 :: rest) = textsFold t1 rest := by
    simp [textsFold]
  rw [hstep, textsFold_join rest t1 ht1]

theorem artifactsTextFold_of_noTexts (arts : List Artifact)
    (h : artifactTexts arts = []) : artifactsTextFold arts = "No response" := by
  rw [artifactsTextFold, foldl_syncArtifactStep, h]
  rfl

/-- A Task reply whose `status.message.parts` array is populated but holds no
text-kind part. -/
def taskReplyNoTextParts : SyncResponse :=
  ⟨some "task", none, none, some ⟨none, some ⟨some [Part.data "x"], none⟩⟩, none, none⟩

/-- An artifacts-only reply whose first artifact text is the literal
`"No response"`, colliding with the sentinel value of the fold. -/
def sentinelArtifactsReply : SyncResponse :=
  ⟨none, none, none, none,
    some [⟨"a1", none, none, some [Part.text "No response"], none⟩,
          ⟨"a2", none, none, some [Part.text "X"], none⟩], none⟩

/-- C1 counterexample: a Task reply with populated but textless
`status.message.parts` normalizes to `"Empty response"`, not to the (empty)
concatenation of its text parts; and in the artifacts case an artifact whose
text equals the `"No response"` sentinel is dropped from the newline join. -/
theorem normalizeSync_shape_counterexample :
    (normalizeSyncResponse taskReplyNoTextParts).text = "Empty response" ∧
    joinTextParts [Part.data "x"] = "" ∧
    ("Empty response" : String) ≠ "" ∧
    (normalizeSyncResponse sentinelArtifactsReply).text = "X" ∧
    joinWithNewlines (artifactTexts
      [(⟨"a1", none, none, some [Part.text "No response"], none⟩ : Artifact),
       ⟨"a2", none, none, some [Part.text "X"], none⟩])
      = "No response" ++ "\n" ++ "X" ∧
    ("X" : String) ≠ "No response" ++ "\n" ++ "X" := by
  decide

/-- C1 (amended): on each of the three reply shapes the canonical text equals
the concatenation of the text parts of that shape — provided the concatenation is
non-empty (otherwise the placeholder rule applies) and, in the artifacts
case, provided the first non-empty artifact text is not the literal
`"No response"` (the sentinel of the fold); the artifacts field carries the
artifact list of the reply when present. -/
theorem normalizeSync_text_amended (resp : SyncResponse) (ps : List Part)
    (arts : List Artifact) :
    (isTaskWithStatus resp = true → statusMessageParts resp = some ps →
      joinTextParts ps ≠ "" →
      (normalizeSyncResponse resp).text = joinTextParts ps ∧
      (normalizeSyncResponse resp).artifacts = resp.artifacts.getD []) ∧
    (isTaskWithStatus resp = false → resp.artifacts = some arts →
      artifactTexts arts ≠ [] → (artifactTexts arts).head? ≠ some "No response" →
      (normalizeSyncResponse resp).text = joinWithNewlines (artifactTexts arts) ∧
      (normalizeSyncResponse resp).artifacts = arts) ∧
    (isTaskWithStatus resp = false → resp.artifacts = none → resp.parts = some ps →
      joinTextParts ps ≠ "" →
      (normalizeSyncResponse resp).text = joinTextParts ps ∧
      (normalizeSyncResponse resp).artifacts = []) := by
  refine ⟨fun hg hsp ht => ?_, fun hg ha h1 h2 => ?_, fun hg ha hp ht => ?_⟩
  · constructor <;> simp [normalizeSyncResponse, hg, hsp, ht]
  · have hj := artifactsTextFold_join arts h1 h2
    constructor <;> simp [normalizeSyncResponse, hg, ha, hj]
  · constructor <;> simp [normalizeSyncResponse, hg, ha, hp, ht]

/-- A Task reply carrying one text part `"Hi"` in `status.message.parts`. -/
def sampleTaskReply : SyncResponse :=
  ⟨some "task", none, none, some ⟨some "completed", some ⟨some [Part.text "Hi"], none⟩⟩,
    none, none⟩

/-- Witness for C1 (amended): the sample Task reply normalizes to the text of
its single text part. -/
theorem normalizeSync_text_amended_witness :
    (normalizeSyncResponse sampleTaskReply).text = joinTextParts [Part.text "Hi"] ∧
    (normalizeSyncResponse sampleTaskReply).artifacts
      = sampleTaskReply.artifacts.getD [] :=
  (normalizeSync_text_amended sampleTaskReply [Part.text "Hi"] []).1
    (by decide) (by decide) (by decide)

/-- A Task reply whose `status.message.parts` is an empty array. -/
def taskReplyEmptyParts : SyncResponse :=
  ⟨some "task", none, none, some ⟨none, some ⟨some [], none⟩⟩, none, none⟩

/-- C2 counterexample: a reply handled as case 1 (Task with status.message)
that yields no text normalizes to `"Empty response"`, not to the claimed
`"No response"`. -/
theorem normalizeSync_placeholder_counterexample :
    isTaskWithStatus taskReplyEmptyParts = true ∧
    (normalizeSyncResponse taskReplyEmptyParts).text = "Empty response" ∧
    ("Empty response" : String) ≠ "No response" := by
  decide

/-- C2 (amended): when no branch yields text, case 1 produces
`"Empty response"` when `status.message.parts` is present and `"No response"`
when it is absent; case 2 produces `"No response"`; case 3 produces
`"Empty response"`. -/
theorem normalizeSync_placeholder_amended (resp : SyncResponse) (ps : List Part)
    (arts : List Artifact) :
    (isTaskWithStatus resp = true → statusMessageParts resp = some ps →
      joinTextParts ps = "" → (normalizeSyncResponse resp).text = "Empty response") ∧
    (isTaskWithStatus resp = true → statusMessageParts resp = none →
      (normalizeSyncResponse resp).text = "No response") ∧
    (isTaskWithStatus resp = false → resp.artifacts = some arts →
      artifactTexts arts = [] → (normalizeSyncResponse resp).text = "No response") ∧
    (isTaskWithStatus resp = false → resp.artifacts = none → resp.parts = some ps →
      joinTextParts ps = "" → (normalizeSyncResponse resp).text = "Empty response") := by
  refine ⟨fun hg hsp ht => by simp [normalizeSyncResponse, hg, hsp, ht],
          fun hg hsp => by simp [normalizeSyncResponse, hg, hsp],
          fun hg ha ht => by
            simp [normalizeSyncResponse, hg, ha, artifactsTextFold_of_noTexts arts ht],
          fun hg ha hp ht => by simp [normalizeSyncResponse, hg, ha, hp, ht]⟩

/-- An artifacts-only reply whose single artifact has a file part and no text
parts. -/
def sampleArtifactsReplyNoText : SyncResponse :=
  ⟨none, none, none, none, some [⟨"a1", none, none, some [Part.file "f" "m" "b"], none⟩], none⟩

/-- Witness for C2 (amended): the sample textless artifacts reply normalizes
to `"No response"`. -/
theorem normalizeSync_placeholder_amended_witness :
    (normalizeSyncResponse sampleArtifactsReplyNoText).text = "No response" :=
  (normalizeSync_placeholder_amended sampleArtifactsReplyNoText []
      [⟨"a1", none, none, some [Part.file "f" "m" "b"], none⟩]).2.2.1
    (by decide) (by decide) (by decide)

theorem processEvent_stored_artifacts (acc : StreamAcc) (e : StreamEvent)
    (art : Artifact) (hart : e.artifact = some art)
    (hph : artifactIsPlaceholder art = false)
    (hnt : artifactHasNonTextParts art = true) :
    ((processEvent acc e).1).accumulatedArtifacts
      = upsertArtifact (e.append.getD false) art acc.accumulatedArtifacts ∧
    (processEvent acc e).2 = e.final.getD false := by
  constructor <;>
    simp [processEvent, hart, hph, hnt, textAndFinalStep_fst_accumulatedArtifacts,
      textAndFinalStep_snd]

theorem upsertArtifact_head_merge (art a : Artifact) (rest : List Artifact)
    (newParts : List Part) (hid : (a.artifactId == art.artifactId) = true)
    (hp : art.parts = some newParts) :
    upsertArtifact true art (a :: rest)
      = { a with parts := some (a.parts.getD [] ++ newParts) } :: rest := by
  simp [upsertArtifact, hid, upsertMerge, hp]

/-- A text-only artifact delivery with `append: true` and artifact id
`"a1"`. -/
def textOnlyAppendEvent : StreamEvent :=
  ⟨none, none, none, some ⟨"a1", none, none, some [Part.text "chunk"], none⟩,
    some true, none⟩

/-- C4 counterexample: three `append: true` deliveries of the same artifact
id whose parts are text-only leave the final artifact list empty — no
artifact with that id exists at all, though the text was accumulated. -/
theorem streamArtifacts_textOnly_counterexample :
    (runStream [textOnlyAppendEvent, textOnlyAppendEvent, textOnlyAppendEvent]).accumulatedArtifacts
      = [] ∧
    (runStream [textOnlyAppendEvent, textOnlyAppendEvent, textOnlyAppendEvent]).accumulatedArtifacts.countP
        (fun a => a.artifactId == "a1") = 0 ∧
    (runStream [textOnlyAppendEvent, textOnlyAppendEvent, textOnlyAppendEvent]).accumulatedText
      = "chunkchunkchunk" := by
  decide

/-- C4 (amended): three `append: true` deliveries of the same artifact id,
each containing at least one non-text part, reconcile to exactly one stored
artifact with that id whose parts are the concatenation of the three
delivered parts in delivery order. -/
theorem streamArtifacts_append_merge (a1 a2 a3 : Artifact) (p1 p2 p3 : List Part)
    (hid2 : a2.artifactId = a1.artifactId) (hid3 : a3.artifactId = a1.artifactId)
    (hp1 : a1.parts = some p1) (hp2 : a2.parts = some p2) (hp3 : a3.parts = some p3)
    (hn1 : p1.any (fun p => !p.isText) = true)
    (hn2 : p2.any (fun p => !p.isText) = true)
    (hn3 : p3.any (fun p => !p.isText) = true) :
    (runStream
      [⟨none, none, none, some a1, some true, none⟩,
       ⟨none, none, none, some a2, some true, none⟩,
       ⟨none, none, none, some a3, some true, none⟩]).accumulatedArtifacts
      = [{ a1 with parts := some ((p1 ++ p2) ++ p3) }] ∧
    (runStream
      [⟨none, none, none, some a1, some true, none⟩,
       ⟨none, none, none, some a2, some true, none⟩,
       ⟨none, none, none, some a3, some true, none⟩]).accumulatedArtifacts.countP
        (fun a => a.artifactId == a1.artifactId) = 1 := by
  have hne1 : p1.isEmpty = false := by cases p1 <;> simp_all
  have hne2 : p2.isEmpty = false := by cases p2 <;> simp_all
  have hne3 : p3.isEmpty = false := by cases p3 <;> simp_all
  have hph1 : artifactIsPlaceholder a1 = false := by
    simp [artifactIsPlaceholder, hp1, hne1]
  have hph2 : artifactIsPlaceholder a2 = false := by
    simp [artifactIsPlaceholder, hp2, hne2]
  have hph3 : artifactIsPlaceholder a3 = false := by
    simp [artifactIsPlaceholder, hp3, hne3]
  have hnt1 : artifactHasNonTextParts a1 = true := by
    simp [artifactHasNonTextParts, hp1, hn1]
  have hnt2 : artifactHasNonTextParts a2 = true := by
    simp [artifactHasNonTextParts, hp2, hn2]
  have hnt3 : artifactHasNonTextParts a3 = true := by
    simp [artifactHasNonTextParts, hp3, hn3]
  have h1 := processEvent_stored_artifacts initialStreamAcc
    ⟨none, none, none, some a1, some true, none⟩ a1 rfl hph1 hnt1
  have h2 := processEvent_stored_artifacts
    (processEvent initialStreamAcc ⟨none, none, none, some a1, some true, none⟩).1
    ⟨none, none, none, some a2, some true, none⟩ a2 rfl hph2 hnt2
  have h3 := processEvent_stored_artifacts
    (processEvent (processEvent initialStreamAcc
        ⟨none, none, none, some a1, some true, none⟩).1
      ⟨none, none, none, some a2, some true, none⟩).1
    ⟨none, none, none, some a3, some true, none⟩ a3 rfl hph3 hnt3
  have hlist :
      (runStream
        [⟨none, none, none, some a1, some true, none⟩,
         ⟨none, none, none, some a2, some true, none⟩,
         ⟨none, none, none, some a3, some true, none⟩]).accumulatedArtifacts
        = [{ a1 with parts := some ((p1 ++ p2) ++ p3) }] := by
    simp only [runStream, runStreamAux]
    rw [if_neg (by simp [h1.2]), if_neg (by simp [h2.2]), if_neg (by simp [h3.2])]
    rw [h3.1, h2.1, h1.1]
    simp only [Option.getD_some, initialStreamAcc]
    rw [show upsertArtifact true a1 [] = [a1] from rfl]
    rw [upsertArtifact_head_merge a2 a1 [] p2 (by simp [hid2]) hp2]
    simp only [hp1, Option.getD_some]
    rw [upsertArtifact_head_merge a3 { a1 with parts := some (p1 ++ p2) } [] p3
      (by simp [hid3]) hp3]
    simp [List.append_assoc]
  refine ⟨hlist, ?_⟩
  rw [hlist]
  simp [List.countP_cons]

/-- A file-carrying delivery of artifact id `"a1"` with payload `b`. -/
def fileArtifactDelivery (b : String) : Artifact :=
  ⟨"a1", none, none, some [Part.file "f" "m" b], none⟩

/-- Witness for C4 (amended): three concrete file-part deliveries of id
`"a1"` merge into one artifact holding all three parts in order. -/
theorem streamArtifacts_append_merge_witness :
    (runStream
      [⟨none, none, none, some (fileArtifactDelivery "b1"), some true, none⟩,
       ⟨none, none, none, some (fileArtifactDelivery "b2"), some true, none⟩,
       ⟨none, none, none, some (fileArtifactDelivery "b3"), some true, none⟩]).accumulatedArtifacts
      = [{ fileArtifactDelivery "b1" with
            parts := some (([Part.file "f" "m" "b1"] ++ [Part.file "f" "m" "b2"])
              ++ [Part.file "f" "m" "b3"]) }] :=
  (streamArtifacts_append_merge (fileArtifactDelivery "b1") (fileArtifactDelivery "b2")
    (fileArtifactDelivery "b3") [Part.file "f" "m" "b1"] [Part.file "f" "m" "b2"]
    [Part.file "f" "m" "b3"] rfl rfl rfl rfl rfl
    (by decide) (by decide) (by decide)).1

/-- A status-update event delivering the text chunk `"A"`. -/
def chunkAEvent : StreamEvent :=
  ⟨none, none, some ⟨none, some ⟨some [Part.text "A"], none⟩⟩, none, none, none⟩

/-- C8 counterexample: a stream that accumulated the text `"A"` and then
fails has its turn content rewritten to exactly the error string, which does
not retain the partial text (the letter A does not even occur in it) — the
marker replaces the content of the partial turn rather than being appended
to it. -/
theorem streamError_replaces_content_counterexample :
    (runStream [chunkAEvent]).accumulatedText = "A" ∧
    (runStreamWithError [chunkAEvent] "boom").bubble
      = some ⟨"Streaming error: boom", some [], some []⟩ ∧
    ¬('A' ∈ "Streaming error: boom".data) := by
  refine ⟨by decide, by decide, by decide⟩

/-- C8 (amended): a mid-stream failure is caught per-turn: when a partial
turn exists its displayed content is replaced by the visible marker
`Streaming error: <message>`; the accumulated partial text survives only in
the return value of `sendMessageStream`, which is unchanged by the failure. -/
theorem streamError_handling_amended (events : List StreamEvent) (errMsg : String) :
    (runStreamWithError events errMsg).accumulatedText
      = (runStream events).accumulatedText ∧
    ((runStream events).bubble.isSome = true →
      (runStreamWithError events errMsg).bubble.map ChatBubble.content
        = some ("Streaming error: " ++ errMsg)) ∧
    ((runStream events).bubble = none →
      (runStreamWithError events errMsg).bubble = none) := by
  unfold runStreamWithError runStream
  cases h : (runStreamAux initialStreamAcc events).bubble <;> simp [h]

/-- Witness for C8 (amended): the concrete failing stream shows the error
marker as the turn content. -/
theorem streamError_handling_amended_witness :
    (runStreamWithError [chunkAEvent] "x").bubble.map ChatBubble.content
      = some ("Streaming error: " ++ "x") :=
  (streamError_handling_amended [chunkAEvent] "x").2.1 (by decide)

end A2AUI
